import Mathlib

/-!
# Verification of the QRupees dashboard (QFInance.py)

A shallow embedding of the data model and operations of `QFInance.py`:
the credential/registration stores (DBAdapter, with its sqlite and
Google-Sheets code paths), the login handler ("Access Gate"), the
registration form handler, the admin bootstrap, the three market-data
fetch functions, and the ttl-cache wrapper around `get_today_prices`.

Conventions:
* Python strings are Lean `String`s; cells that pandas would read as
  `NaN` (empty cells) are `Option String` with `none` for absent.
* bcrypt is modelled by its functional contract: `checkpw (hashpw p) q`
  holds exactly when `p = q`; the salt plays no role in any claim.
* Fallible Python code is modelled with `Except PyExn`; a `try/except
  Exception` block maps every `.error` to the code's fallback value.
-/

/-- Python exception values that the embedded code can raise. -/
inductive PyExn where
  | nameError
  | httpError
  | requestError
  | valueError
  | indexError
  | jsonError
  deriving DecidableEq, Repr

/-- Models a bcrypt hash. `bcrypt.checkpw(q, bcrypt.hashpw(p, salt))`
succeeds exactly when `q = p`; the salt is irrelevant to every claim, so a
hash is represented by the password it was derived from. -/
structure BHash where
  pw : String
  deriving DecidableEq, Repr

/-- `hash_password` (QFInance.py line 205): `bcrypt.hashpw(password.encode(), bcrypt.gensalt())`. -/
def hash_password (password : String) : BHash := ⟨password⟩

/-- `check_password` (QFInance.py line 208): `bcrypt.checkpw(password.encode(), hashed)`. -/
def check_password (hashed : BHash) (password : String) : Bool :=
  hashed.pw == password

/-- A row of the `users` table (sqlite) / the "Users" worksheet (gsheets):
`(id, email, password, is_admin)`. `is_admin` is the 0/1 integer the code
stores and compares with `str(user[2]) == '1'`. -/
structure Account where
  id : Nat
  email : String
  password : BHash
  is_admin : Nat
  deriving DecidableEq, Repr

/-- A row of the `registrations` table / the "Registrations" worksheet.
`approved` is `Option Nat`: the sqlite path inserts the literal `0` and the
admin action sets `1`; the gsheets `create_registration` appends a 26-value
row into a 27-column sheet, leaving the `approved` cell blank (`none`). -/
structure RegRecord where
  id : Nat
  user_id : Nat
  full_name : String := ""
  phone : String := ""
  address : String := ""
  city : String := ""
  state : String := ""
  zip_code : String := ""
  country : String := ""
  highest_degree : String := ""
  field_of_study : String := ""
  university : String := ""
  graduation_year : Option Int := none
  certifications : String := ""
  trading_duration : String := ""
  trading_style : String := ""
  markets : String := ""
  specializations : String := ""
  current_occupation : String := ""
  company : String := ""
  years_of_experience : String := ""
  linkedin : String := ""
  about_yourself : String := ""
  goals : String := ""
  references : String := ""
  consent : Nat := 0
  approved : Option Nat := none
  deriving DecidableEq, Repr

/-- `DBAdapter.get_user` (lines 100-114). Both backends return the first
stored row whose email matches: sqlite via `SELECT ... WHERE email=?` +
`fetchone()`, gsheets by scanning `get_all_records()` in order. -/
def get_user (users : List Account) (email : String) : Option Account :=
  users.find? (fun a => a.email == email)

/-- `DBAdapter.get_registration` (lines 129-140). Both backends return the
`approved` value of the first registration row whose `user_id` matches, or
`none` when no such row exists. -/
def get_registration (regs : List RegRecord) (uid : Nat) : Option (Option Nat) :=
  (regs.find? (fun r => r.user_id == uid)).map (fun r => r.approved)

/-- Outcome of one login attempt on the Login page. -/
inductive LoginResult where
  | credentialsInvalid
  | pendingApproval
  | authenticated
  deriving DecidableEq, Repr

/-- The Login page handler (QFInance.py lines 527-549): look up the account
by email; on a missing account or a failed `check_password` report invalid
credentials; otherwise compute `is_admin_flag = (str(user[2]) == '1')` and
`is_approved_flag = (reg and str(reg[0]) == '1')` and authenticate iff
either flag holds, reporting pending approval otherwise. -/
def login (users : List Account) (regs : List RegRecord)
    (email password : String) : LoginResult :=
  match get_user users email with
  | none => .credentialsInvalid
  | some u =>
    if check_password u.password password then
      let reg := get_registration regs u.id
      let is_admin_flag : Bool := u.is_admin == 1
      let is_approved_flag : Bool :=
        match reg with
        | some a => a == some 1
        | none => false
      if is_approved_flag || is_admin_flag then .authenticated
      else .pendingApproval
    else .credentialsInvalid

/-- The Access Gate transition rule exactly as the specification words it:
absent account or hash mismatch yields `CredentialsInvalid`; otherwise an
admin account is `Authenticated` regardless of registration state; otherwise
an existing approved registration is `Authenticated`; every remaining case
is `PendingApproval`. Stated for comparison against `login`. -/
def accessGateSpec (users : List Account) (regs : List RegRecord)
    (email password : String) : LoginResult :=
  match get_user users email with
  | none => .credentialsInvalid
  | some u =>
    if check_password u.password password = false then .credentialsInvalid
    else if u.is_admin == 1 then .authenticated
    else
      match get_registration regs u.id with
      | some a => if a == some 1 then .authenticated else .pendingApproval
      | none => .pendingApproval

/-- **C1.** Access Gate transition rule: for every store and every
`(email, password)` attempt, the login handler of QFInance.py computes
exactly the spec's transition rule — `CredentialsInvalid` when the account
is absent or the hash check fails, `Authenticated` for admins regardless of
registration state, `Authenticated` for an existing approved registration,
and `PendingApproval` in every remaining case. -/
theorem c1_access_gate (users : List Account) (regs : List RegRecord)
    (email password : String) :
    login users regs email password = accessGateSpec users regs email password := by
  unfold login accessGateSpec
  cases get_user users email with
  | none => rfl
  | some u =>
    by_cases hc : check_password u.password password
    · simp only [hc, if_true, Bool.true_eq_false, if_false]
      cases hr : get_registration regs u.id with
      | none =>
        by_cases ha : (u.is_admin == 1) = true
        · simp [ha]
        · simp [ha]
      | some a =>
        by_cases ha : (u.is_admin == 1) = true
        · by_cases hap : (a == some 1) = true <;> simp [ha, hap]
        · by_cases hap : (a == some 1) = true <;> simp [ha, hap]
    · simp [hc]

/-- The largest id among the stored accounts (0 for the empty store): the
value sqlite's `INTEGER PRIMARY KEY` auto-assignment increments. -/
def maxUserId (users : List Account) : Nat :=
  users.foldr (fun a m => max a.id m) 0

/-- `DBAdapter.create_user`, sqlite path (lines 124-127):
`INSERT OR IGNORE INTO users (email, password, is_admin) VALUES (?,?,?)`
against a table whose `email` column is `UNIQUE` — a duplicate email makes
the insert a silent no-op; otherwise a fresh auto-assigned id is used. -/
def create_user_sq (users : List Account) (email : String)
    (password_hash : BHash) (is_admin : Nat) : List Account :=
  if users.any (fun a => a.email == email) then users
  else users ++ [⟨maxUserId users + 1, email, password_hash, is_admin⟩]

/-- `DBAdapter.create_user`, gsheets path (lines 117-123): computes
`new_id = len(records) + 1` and unconditionally appends the new row with
`append_row`; nothing checks whether the email is already present. -/
def create_user_gs (users : List Account) (email : String)
    (password_hash : BHash) (is_admin : Nat) : List Account :=
  users ++ [⟨users.length + 1, email, password_hash, is_admin⟩]

/-- Number of stored accounts carrying a given email. -/
def countEmail (users : List Account) (email : String) : Nat :=
  (users.filter (fun a => a.email == email)).length

/-- **C5 counterexample.** A Google-Sheets store already holding an account
with email `"a@b.c"`: `create_user` appends a second row with the same
email, so the set of stored accounts does change — the claim's "no second
row with email e is inserted ... in both the sqlite backend and the
Google-Sheets backend" is false for the sheets backend. -/
theorem c5_gsheets_duplicate_counterexample :
    create_user_gs [⟨1, "a@b.c", ⟨"pw"⟩, 0⟩] "a@b.c" ⟨"pw"⟩ 0 ≠
      [⟨1, "a@b.c", ⟨"pw"⟩, 0⟩] ∧
    countEmail (create_user_gs [⟨1, "a@b.c", ⟨"pw"⟩, 0⟩] "a@b.c" ⟨"pw"⟩ 0) "a@b.c" = 2 := by
  constructor
  · decide
  · decide

/-- **C5 (amended).** `create_user` is a silent no-op on a duplicate email
in the sqlite backend: when the store already holds an account with email
`e`, the stored accounts are unchanged. The Google-Sheets backend instead
appends a new row unconditionally, so there the store always changes and a
duplicate email is inserted; callers are expected to check `get_user`
first. -/
theorem c5_create_user_duplicate (users : List Account) (email : String)
    (password_hash : BHash) (is_admin : Nat)
    (hdup : ∃ u ∈ users, u.email = email) :
    create_user_sq users email password_hash is_admin = users ∧
    create_user_gs users email password_hash is_admin ≠ users := by
  constructor
  · obtain ⟨u, hu, he⟩ := hdup
    have : users.any (fun a => a.email == email) = true := by
      exact List.any_eq_true.mpr ⟨u, hu, by simp [he]⟩
    simp [create_user_sq, this]
  · intro h
    have hlen := congrArg List.length h
    simp [create_user_gs] at hlen

/-- Witness for C5 (amended) at the one-account store. -/
theorem c5_create_user_duplicate_witness :
    create_user_sq [⟨1, "a@b.c", ⟨"pw"⟩, 0⟩] "a@b.c" ⟨"pw"⟩ 0 =
      [⟨1, "a@b.c", ⟨"pw"⟩, 0⟩] ∧
    create_user_gs [⟨1, "a@b.c", ⟨"pw"⟩, 0⟩] "a@b.c" ⟨"pw"⟩ 0 ≠
      [⟨1, "a@b.c", ⟨"pw"⟩, 0⟩] :=
  c5_create_user_duplicate [⟨1, "a@b.c", ⟨"pw"⟩, 0⟩] "a@b.c" ⟨"pw"⟩ 0
    ⟨⟨1, "a@b.c", ⟨"pw"⟩, 0⟩, by decide, rfl⟩


/-- The per-row effect of `UPDATE registrations SET approved=1 WHERE id=?`:
set the `approved` column of a row whose id matches, leave others alone. -/
def approve_row (reg_id : Nat) (r : RegRecord) : RegRecord :=
  if r.id == reg_id then { r with approved := some 1 } else r

/-- `DBAdapter.approve_registration`, sqlite path (lines 184-186):
`UPDATE registrations SET approved=1 WHERE id=?`. -/
def approve_registration_sq (regs : List RegRecord) (reg_id : Nat) : List RegRecord :=
  regs.map (approve_row reg_id)

/-- `DBAdapter.approve_registration`, gsheets path (lines 175-183):
`sheet_regs.find(str(reg_id), in_column=1)` locates the first row whose id
cell equals `reg_id`, and `update_cell(cell.row, 27, 1)` sets that row's
`approved` column to 1; when no row matches, nothing happens. -/
def approve_registration_gs : List RegRecord → Nat → List RegRecord
  | [], _ => []
  | r :: rs, reg_id =>
    if r.id == reg_id then { r with approved := some 1 } :: rs
    else r :: approve_registration_gs rs reg_id

/-- A registration row with its `approved` cell blanked; two stores that
agree under this map differ at most in approval flags. -/
def clear_approved (r : RegRecord) : RegRecord := { r with approved := none }

theorem approve_gs_nil (reg_id : Nat) : approve_registration_gs [] reg_id = [] := rfl

theorem approve_gs_cons (r : RegRecord) (rs : List RegRecord) (reg_id : Nat) :
    approve_registration_gs (r :: rs) reg_id =
      if r.id == reg_id then { r with approved := some 1 } :: rs
      else r :: approve_registration_gs rs reg_id := rfl

theorem approve_row_idem (reg_id : Nat) (r : RegRecord) :
    approve_row reg_id (approve_row reg_id r) = approve_row reg_id r := by
  unfold approve_row
  by_cases h : (r.id == reg_id) = true
  · rw [if_pos h]
    have h2 : (({ r with approved := some 1 } : RegRecord).id == reg_id) = true := h
    rw [if_pos h2]
  · rw [if_neg h, if_neg h]

theorem approve_row_clear (reg_id : Nat) (r : RegRecord) :
    clear_approved (approve_row reg_id r) = clear_approved r := by
  unfold approve_row
  by_cases h : (r.id == reg_id) = true
  · rw [if_pos h]
    rfl
  · rw [if_neg h]

theorem approve_sq_idem (regs : List RegRecord) (reg_id : Nat) :
    approve_registration_sq (approve_registration_sq regs reg_id) reg_id =
      approve_registration_sq regs reg_id := by
  unfold approve_registration_sq
  rw [List.map_map]
  apply List.map_congr_left
  intro r _
  exact approve_row_idem reg_id r

theorem approve_gs_idem (regs : List RegRecord) (reg_id : Nat) :
    approve_registration_gs (approve_registration_gs regs reg_id) reg_id =
      approve_registration_gs regs reg_id := by
  induction regs with
  | nil => rfl
  | cons r rs ih =>
    by_cases h : (r.id == reg_id) = true
    · rw [approve_gs_cons, if_pos h]
      have h2 : (({ r with approved := some 1 } : RegRecord).id == reg_id) = true := h
      rw [approve_gs_cons, if_pos h2]
    · rw [approve_gs_cons, if_neg h, approve_gs_cons, if_neg h, ih]

theorem approve_sq_only_approved (regs : List RegRecord) (reg_id : Nat) :
    (approve_registration_sq regs reg_id).map clear_approved =
      regs.map clear_approved := by
  unfold approve_registration_sq
  rw [List.map_map]
  apply List.map_congr_left
  intro r _
  exact approve_row_clear reg_id r

theorem approve_gs_only_approved (regs : List RegRecord) (reg_id : Nat) :
    (approve_registration_gs regs reg_id).map clear_approved =
      regs.map clear_approved := by
  induction regs with
  | nil => rfl
  | cons r rs ih =>
    by_cases h : (r.id == reg_id) = true
    · rw [approve_gs_cons, if_pos h]
      rfl
    · rw [approve_gs_cons, if_neg h]
      simp only [List.map_cons]
      rw [ih]

theorem approve_sq_sets_flag (regs : List RegRecord) (reg_id : Nat)
    (hmem : ∃ r ∈ regs, r.id = reg_id) :
    ∃ r ∈ approve_registration_sq regs reg_id, r.id = reg_id ∧ r.approved = some 1 := by
  obtain ⟨r, hr, hid⟩ := hmem
  refine ⟨{ r with approved := some 1 }, ?_, hid, rfl⟩
  have hb : (r.id == reg_id) = true := by simp [hid]
  have hrow : approve_row reg_id r = { r with approved := some 1 } := by
    unfold approve_row
    rw [if_pos hb]
  have hmm := List.mem_map_of_mem (approve_row reg_id) hr
  rw [hrow] at hmm
  exact hmm

theorem approve_gs_sets_flag (regs : List RegRecord) (reg_id : Nat)
    (hmem : ∃ r ∈ regs, r.id = reg_id) :
    ∃ r ∈ approve_registration_gs regs reg_id, r.id = reg_id ∧ r.approved = some 1 := by
  induction regs with
  | nil => simp at hmem
  | cons r rs ih =>
    by_cases h : (r.id == reg_id) = true
    · refine ⟨{ r with approved := some 1 }, ?_, ?_, rfl⟩
      · rw [approve_gs_cons, if_pos h]
        exact List.mem_cons_self _ _
      · simpa using h
    · obtain ⟨s, hs, hsid⟩ := hmem
      rcases List.mem_cons.mp hs with heq | htl
      · exfalso
        apply h
        simp [heq ▸ hsid]
      · obtain ⟨t, ht, htid, htap⟩ := ih ⟨s, htl, hsid⟩
        refine ⟨t, ?_, htid, htap⟩
        rw [approve_gs_cons, if_neg h]
        exact List.mem_cons_of_mem _ ht

/-- **C6.** `approve_registration` is idempotent in both backends: for a
registration id present in the store, approving twice yields exactly the
store of approving once; moreover the operation changes nothing besides
approval flags, and it leaves the targeted registration approved. -/
theorem c6_approve_idempotent (regs : List RegRecord) (reg_id : Nat)
    (hmem : ∃ r ∈ regs, r.id = reg_id) :
    approve_registration_sq (approve_registration_sq regs reg_id) reg_id =
      approve_registration_sq regs reg_id ∧
    approve_registration_gs (approve_registration_gs regs reg_id) reg_id =
      approve_registration_gs regs reg_id ∧
    (approve_registration_sq regs reg_id).map clear_approved = regs.map clear_approved ∧
    (approve_registration_gs regs reg_id).map clear_approved = regs.map clear_approved ∧
    (∃ r ∈ approve_registration_sq regs reg_id, r.id = reg_id ∧ r.approved = some 1) ∧
    (∃ r ∈ approve_registration_gs regs reg_id, r.id = reg_id ∧ r.approved = some 1) :=
  ⟨approve_sq_idem regs reg_id, approve_gs_idem regs reg_id,
   approve_sq_only_approved regs reg_id, approve_gs_only_approved regs reg_id,
   approve_sq_sets_flag regs reg_id hmem, approve_gs_sets_flag regs reg_id hmem⟩

/-- A sample pending registration row used to instantiate theorems. -/
def sampleReg : RegRecord :=
  { id := 1, user_id := 2, full_name := "Ram Shrestha", phone := "9841000000",
    consent := 1, approved := some 0 }

/-- Witness for C6 at a one-row registration store. -/
theorem c6_approve_idempotent_witness :
    approve_registration_sq (approve_registration_sq [sampleReg] 1) 1 =
      approve_registration_sq [sampleReg] 1 ∧
    approve_registration_gs (approve_registration_gs [sampleReg] 1) 1 =
      approve_registration_gs [sampleReg] 1 :=
  ⟨(c6_approve_idempotent [sampleReg] 1 ⟨sampleReg, by simp, rfl⟩).1,
   (c6_approve_idempotent [sampleReg] 1 ⟨sampleReg, by simp, rfl⟩).2.1⟩

/-- The hardcoded administrator email (QFInance.py line 193). -/
def adminEmail : String := "admin@qrupees.com"

/-- `bcrypt.hashpw("adminpass".encode(), bcrypt.gensalt())` (line 194). -/
def admin_pass : BHash := hash_password "adminpass"

/-- Admin bootstrap, sqlite path (lines 196-199): `SELECT * FROM users
WHERE email=?`; only when `fetchone()` finds nothing is
`create_user(admin_email, admin_pass, 1)` called. -/
def boot_sq (users : List Account) : List Account :=
  if (users.find? (fun a => a.email == adminEmail)).isSome then users
  else create_user_sq users adminEmail admin_pass 1

/-- Admin bootstrap, gsheets path (lines 200-202): only when
`db.get_user(admin_email)` finds nothing is
`create_user(admin_email, admin_pass, 1)` called. -/
def boot_gs (users : List Account) : List Account :=
  if (get_user users adminEmail).isSome then users
  else create_user_gs users adminEmail admin_pass 1

/-- **C9 counterexample.** A pre-boot Google-Sheets store already holding
two rows with the admin email (nothing in the sheets backend enforces email
uniqueness): boot sees the email present and skips creation, so the
post-boot store still holds two accounts with that email — not "exactly
one" as the claim states for every pre-boot store state. -/
theorem c9_duplicate_admin_counterexample :
    countEmail (boot_gs [⟨1, "admin@qrupees.com", ⟨"adminpass"⟩, 1⟩,
      ⟨2, "admin@qrupees.com", ⟨"adminpass"⟩, 1⟩]) "admin@qrupees.com" = 2 ∧
    boot_gs [⟨1, "admin@qrupees.com", ⟨"adminpass"⟩, 1⟩,
      ⟨2, "admin@qrupees.com", ⟨"adminpass"⟩, 1⟩] =
      [⟨1, "admin@qrupees.com", ⟨"adminpass"⟩, 1⟩,
       ⟨2, "admin@qrupees.com", ⟨"adminpass"⟩, 1⟩] := by
  constructor
  · decide
  · decide

theorem countEmail_zero_iff (users : List Account) (email : String) :
    countEmail users email = 0 ↔ ∀ a ∈ users, (a.email == email) = false := by
  unfold countEmail
  rw [List.length_eq_zero, List.filter_eq_nil_iff]
  constructor
  · intro h a ha
    exact Bool.eq_false_iff.mpr (h a ha)
  · intro h a ha
    exact Bool.eq_false_iff.mp (h a ha)

theorem countEmail_append (users more : List Account) (email : String) :
    countEmail (users ++ more) email = countEmail users email + countEmail more email := by
  unfold countEmail
  rw [List.filter_append, List.length_append]

theorem find?_email_isSome_iff (users : List Account) (email : String) :
    (users.find? (fun a => a.email == email)).isSome = true ↔
      ∃ a ∈ users, (a.email == email) = true := by
  rw [List.find?_isSome]

theorem countEmail_pos_of_mem {users : List Account} {email : String}
    (h : ∃ a ∈ users, (a.email == email) = true) : 0 < countEmail users email := by
  obtain ⟨a, ha, he⟩ := h
  unfold countEmail
  exact List.length_pos.mpr (List.ne_nil_of_mem (List.mem_filter.mpr ⟨ha, he⟩))

/-- **C9 (amended).** Boot ensures an account with the fixed email
`admin@qrupees.com` exists: when no such account is stored it is created
with the admin flag set, and creation is skipped when one is present. For
every pre-boot store holding at most one account with that email — which
covers every sqlite store (the schema declares `email` UNIQUE) and every
post-boot state, making repeated boots stable — the post-boot store holds
exactly one account with that email, in both backends. -/
theorem c9_bootstrap_admin (users : List Account)
    (hle : countEmail users adminEmail ≤ 1) :
    countEmail (boot_sq users) adminEmail = 1 ∧
    countEmail (boot_gs users) adminEmail = 1 ∧
    (countEmail users adminEmail = 0 →
      (∃ a, boot_sq users = users ++ [a] ∧ a.email = adminEmail ∧ a.is_admin = 1) ∧
      (∃ a, boot_gs users = users ++ [a] ∧ a.email = adminEmail ∧ a.is_admin = 1)) ∧
    (countEmail users adminEmail = 1 → boot_sq users = users ∧ boot_gs users = users) := by
  by_cases h0 : countEmail users adminEmail = 0
  · have hnone : ∀ a ∈ users, (a.email == adminEmail) = false :=
      (countEmail_zero_iff users adminEmail).mp h0
    have hfind : (users.find? (fun a => a.email == adminEmail)).isSome = false := by
      rw [Bool.eq_false_iff]
      intro hs
      obtain ⟨a, ha, he⟩ := (find?_email_isSome_iff users adminEmail).mp hs
      rw [hnone a ha] at he
      exact Bool.false_ne_true he
    have hany : users.any (fun a => a.email == adminEmail) = false := by
      rw [Bool.eq_false_iff]
      intro hs
      obtain ⟨a, ha, he⟩ := List.any_eq_true.mp hs
      rw [hnone a ha] at he
      exact Bool.false_ne_true he
    have hsq : boot_sq users =
        users ++ [⟨maxUserId users + 1, adminEmail, admin_pass, 1⟩] := by
      unfold boot_sq create_user_sq
      rw [hfind, hany]
      simp
    have hgs : boot_gs users =
        users ++ [⟨users.length + 1, adminEmail, admin_pass, 1⟩] := by
      unfold boot_gs get_user create_user_gs
      rw [hfind]
      simp
    refine ⟨?_, ?_, fun _ => ⟨⟨_, hsq, rfl, rfl⟩, ⟨_, hgs, rfl, rfl⟩⟩, fun h1 => ?_⟩
    · rw [hsq, countEmail_append, h0]
      simp [countEmail]
    · rw [hgs, countEmail_append, h0]
      simp [countEmail]
    · rw [h1] at h0
      exact absurd h0 one_ne_zero
  · have h1 : countEmail users adminEmail = 1 := Nat.le_antisymm hle (Nat.pos_of_ne_zero h0)
    have hmem : ∃ a ∈ users, (a.email == adminEmail) = true := by
      by_contra hno
      push_neg at hno
      apply h0
      rw [countEmail_zero_iff]
      intro a ha
      exact Bool.eq_false_iff.mpr (hno a ha)
    have hfind : (users.find? (fun a => a.email == adminEmail)).isSome = true :=
      (find?_email_isSome_iff users adminEmail).mpr hmem
    have hsq : boot_sq users = users := by
      unfold boot_sq
      rw [hfind]
      simp
    have hgs : boot_gs users = users := by
      unfold boot_gs get_user
      rw [hfind]
      simp
    exact ⟨by rw [hsq]; exact h1, by rw [hgs]; exact h1,
      fun hz => absurd hz h0, fun _ => ⟨hsq, hgs⟩⟩

/-- Witness for C9 (amended) at the empty pre-boot store. -/
theorem c9_bootstrap_admin_witness :
    countEmail (boot_sq []) adminEmail = 1 ∧ countEmail (boot_gs []) adminEmail = 1 :=
  ⟨(c9_bootstrap_admin [] (by decide)).1, (c9_bootstrap_admin [] (by decide)).2.1⟩

/-- Whether `pat` occurs at the start of `s` (over character lists). -/
def leadsWith : List Char → List Char → Bool
  | [], _ => true
  | _ :: _, [] => false
  | p :: ps, c :: cs => p == c && leadsWith ps cs

/-- Whether `pat` occurs as a contiguous substring of `s`: the Python
expression `pat in s` for strings. -/
def hasSub (pat : List Char) : List Char → Bool
  | [] => pat.isEmpty
  | c :: cs => leadsWith pat (c :: cs) || hasSub pat cs

/-- Python `needle in hay.lower()`: case-fold the haystack with
`str.lower` and test substring containment. -/
def lowerContains (hay needle : String) : Bool :=
  hasSub needle.data (hay.data.map Char.toLower)

/-- The predicate of the generator on line 413: a header naming the
turnover field, `"amount" in c.lower() or "turnover" in c.lower()`. -/
def isTurnoverHeader (c : String) : Bool :=
  lowerContains c "amount" || lowerContains c "turnover"

/-- The predicate of the generator on line 414: a header naming the volume
field, `"quantity" in c.lower() or "volume" in c.lower() or "shares" in
c.lower()`. -/
def isVolumeHeader (c : String) : Bool :=
  lowerContains c "quantity" || lowerContains c "volume" || lowerContains c "shares"

/-- `turnover_col` (line 413): `next((c for c in cols if ...), None)` — the
first header matching a turnover alias, `None` when no header matches. -/
def turnover_col (cols : List String) : Option String :=
  cols.find? isTurnoverHeader

/-- `vol_col` (line 414): the first header matching a volume alias, `None`
when no header matches. -/
def vol_col (cols : List String) : Option String :=
  cols.find? isVolumeHeader

theorem find?_first_characterization {α : Type} (p : α → Bool) (l : List α) :
    (∀ c, l.find? p = some c →
      p c = true ∧ ∃ l₁ l₂, l = l₁ ++ c :: l₂ ∧ ∀ x ∈ l₁, p x = false) ∧
    (l.find? p = none ↔ ∀ c ∈ l, p c = false) := by
  constructor
  · intro c h
    refine ⟨List.find?_some h, ?_⟩
    induction l with
    | nil => simp at h
    | cons a l ih =>
      by_cases hp : p a = true
      · rw [List.find?_cons_of_pos _ hp] at h
        cases h
        exact ⟨[], l, rfl, by simp⟩
      · rw [List.find?_cons_of_neg _ hp] at h
        obtain ⟨l₁, l₂, heq, hall⟩ := ih h
        refine ⟨a :: l₁, l₂, by rw [heq, List.cons_append], ?_⟩
        intro x hx
        rcases List.mem_cons.mp hx with hx | hx
        · rw [hx]
          exact Bool.eq_false_iff.mpr hp
        · exact hall x hx
  · rw [List.find?_eq_none]
    constructor
    · intro h c hc
      exact Bool.eq_false_iff.mpr (h c hc)
    · intro h c hc
      exact Bool.eq_false_iff.mp (h c hc)

/-- **C3.** Column-alias resolution for the daily-price table: for every
header list, `turnover_col` is exactly the first header containing
"amount" or "turnover" case-insensitively (and `vol_col` the first header
containing "quantity", "volume" or "shares"); whenever the list contains
some alias the field resolves (to a header satisfying that alias
predicate), and when no header matches the resolver yields `none` — the
field is omitted, the parse does not fail. -/
theorem c3_alias_resolution (cols : List String) :
    (∀ c, turnover_col cols = some c →
      isTurnoverHeader c = true ∧
      ∃ l₁ l₂, cols = l₁ ++ c :: l₂ ∧ ∀ x ∈ l₁, isTurnoverHeader x = false) ∧
    (turnover_col cols = none ↔ ∀ c ∈ cols, isTurnoverHeader c = false) ∧
    ((∃ c ∈ cols, isTurnoverHeader c = true) → (turnover_col cols).isSome = true) ∧
    (∀ c, vol_col cols = some c →
      isVolumeHeader c = true ∧
      ∃ l₁ l₂, cols = l₁ ++ c :: l₂ ∧ ∀ x ∈ l₁, isVolumeHeader x = false) ∧
    (vol_col cols = none ↔ ∀ c ∈ cols, isVolumeHeader c = false) ∧
    ((∃ c ∈ cols, isVolumeHeader c = true) → (vol_col cols).isSome = true) := by
  refine ⟨(find?_first_characterization isTurnoverHeader cols).1,
    (find?_first_characterization isTurnoverHeader cols).2, ?_,
    (find?_first_characterization isVolumeHeader cols).1,
    (find?_first_characterization isVolumeHeader cols).2, ?_⟩
  · intro h
    unfold turnover_col
    rw [List.find?_isSome]
    exact h
  · intro h
    unfold vol_col
    rw [List.find?_isSome]
    exact h

/-- Witness for C3: instantiating the resolution theorem at the header
list `["S.No", "Amount Rs."]`, which contains the turnover alias "amount",
shows the turnover field resolves. -/
theorem c3_alias_resolution_witness :
    (turnover_col ["S.No", "Amount Rs."]).isSome = true :=
  (c3_alias_resolution ["S.No", "Amount Rs."]).2.2.1
    ⟨"Amount Rs.", by decide, by decide⟩

/-- A pandas DataFrame of the today-price table: rows of cells, where a
cell pandas read as `NaN` (an empty cell in the source table) is `none`. -/
abbrev DF := List (List (Option String))

/-- How pandas readers materialise a raw text cell: the empty cell becomes
`NaN` (`none`), any other text is kept. -/
def parseCell (s : String) : Option String :=
  if s = "" then none else some s

/-- Raw text rows as read into a DataFrame. -/
def parseRows (rows : List (List String)) : DF :=
  rows.map (fun r => r.map parseCell)

/-- `df.dropna(how='all')` (QFInance.py line 247): drop exactly the rows
whose every value is `NaN`; a row with at least one present value is kept. -/
def dropna_all (df : DF) : DF :=
  df.filter (fun r => r.any (fun cell => cell.isSome))

/-- **C4.** Row filtering in normalization: a row of the fetched table
survives `dropna(how='all')` exactly when at least one of its fields is
present — all-absent rows are dropped and every row with one resolved field
is kept whatever its other fields; on the spec's scenario (headers
Symbol/LTP/Qty, one NABIL row and one all-empty row) the result is exactly
the single NABIL row. -/
theorem c4_row_filtering :
    (∀ (df : DF) (r : List (Option String)), r ∈ df →
      (r ∈ dropna_all df ↔ r.any (fun cell => cell.isSome) = true)) ∧
    dropna_all (parseRows [["NABIL", "1200.5", "100"], ["", "", ""]]) =
      [[some "NABIL", some "1200.5", some "100"]] := by
  constructor
  · intro df r hr
    unfold dropna_all
    rw [List.mem_filter]
    constructor
    · intro h
      exact h.2
    · intro h
      exact ⟨hr, h⟩
  · decide

/-- Witness for C4: the membership characterization applied to the
scenario table — the NABIL row is kept, the all-empty row is dropped. -/
theorem c4_row_filtering_witness :
    ([some "NABIL", some "1200.5", some "100"] ∈
      dropna_all (parseRows [["NABIL", "1200.5", "100"], ["", "", ""]])) ∧
    ¬ ([none, none, none] ∈
      dropna_all (parseRows [["NABIL", "1200.5", "100"], ["", "", ""]])) :=
  ⟨(c4_row_filtering.1 (parseRows [["NABIL", "1200.5", "100"], ["", "", ""]])
      [some "NABIL", some "1200.5", some "100"] (by decide)).mpr (by decide),
   fun h =>
     absurd ((c4_row_filtering.1 (parseRows [["NABIL", "1200.5", "100"], ["", "", ""]])
       [none, none, none] (by decide)).mp h) (by decide)⟩

/-- The observable outcome of one `requests.get` call: either the request
itself raises (timeout, connection failure) or a response arrives with a
status code and a body, abstracted per endpoint. -/
inductive Fetch (β : Type) where
  | netError : Fetch β
  | response (status : Nat) (body : β) : Fetch β

/-- `requests.get(...)`: a raising call is an `Except.error`. -/
def getResponse {β : Type} : Fetch β → Except PyExn (Nat × β)
  | .netError => .error .requestError
  | .response s b => .ok (s, b)

/-- `response.raise_for_status()`: raises `HTTPError` on a 4xx/5xx status. -/
def raise_for_status (status : Nat) : Except PyExn Unit :=
  if 400 ≤ status then .error .httpError else .ok ()

/-- Python `s.strip()`. -/
def pyStrip (s : String) : String :=
  String.mk ((((s.data.dropWhile Char.isWhitespace).reverse).dropWhile Char.isWhitespace).reverse)

/-- `link.split('/')` over characters, accumulator style. -/
def splitSlashAux : List Char → List Char → List (List Char)
  | [], acc => [acc.reverse]
  | c :: cs, acc =>
    if c == '/' then acc.reverse :: splitSlashAux cs []
    else splitSlashAux cs (c :: acc)

/-- `link.split('/')[-1]`: the final segment of an URL path. -/
def lastSeg (s : String) : String :=
  String.mk ((splitSlashAux s.data []).getLast?.getD [])

/-- One `<tr>` of the scraped company table: its `<td>` texts and the
`href` of its first `<a>`, when any. -/
structure HtmlRow where
  tds : List String
  link : Option String
  deriving DecidableEq, Repr

/-- One entry of the company directory produced by `get_nepse_companies`. -/
structure Company where
  symbol : String
  name : String
  id : Option String
  deriving DecidableEq, Repr

/-- The per-row body of the loop in `get_nepse_companies` (lines 223-230):
rows with at most one `<td>` are skipped; otherwise `cols[2]` and `cols[1]`
are read — which raises `IndexError` when the row has exactly two cells —
and the stock id is the last segment of the row's link, if any. -/
def rowToCompany (r : HtmlRow) : Except PyExn (Option Company) :=
  if 1 < r.tds.length then
    match r.tds.get? 2, r.tds.get? 1 with
    | some s2, some s1 =>
      .ok (some ⟨pyStrip s2, pyStrip s1, r.link.map lastSeg⟩)
    | _, _ => .error .indexError
  else .ok none

/-- The whole row loop of `get_nepse_companies`, in table order. -/
def rowsToCompanies : List HtmlRow → Except PyExn (List Company)
  | [] => .ok []
  | r :: rs =>
    match rowToCompany r with
    | .error e => .error e
    | .ok c? =>
      match rowsToCompanies rs with
      | .error e => .error e
      | .ok rest =>
        match c? with
        | some c => .ok (c :: rest)
        | none => .ok rest

/-- The `try` body of `get_nepse_companies` (lines 217-231): request, then
`raise_for_status`, then parse; `soup.find('table')` returning nothing
(`none`) yields the empty company list; `find_all('tr')[1:]` skips the
header row. -/
def get_nepse_companies_body (o : Fetch (Option (List HtmlRow))) :
    Except PyExn (List Company) :=
  match getResponse o with
  | .error e => .error e
  | .ok (status, tbl) =>
    match raise_for_status status with
    | .error e => .error e
    | .ok _ =>
      match tbl with
      | none => .ok []
      | some rows => rowsToCompanies (rows.drop 1)

/-- `get_nepse_companies` (lines 211-234) as observed by its caller: the
whole body runs under `try/except Exception`, and the handler returns the
empty DataFrame, so every raised exception is absorbed. -/
def get_nepse_companies_call (o : Fetch (Option (List HtmlRow))) :
    Except PyExn (List Company) :=
  match get_nepse_companies_body o with
  | .ok cs => .ok cs
  | .error _ => .ok []

/-- The `try` body of `get_today_prices` (lines 242-248): request,
`raise_for_status`, `pd.read_html(html)` — raising `ValueError` when no
table parses (`none`) — then `[0]` — raising `IndexError` on an empty table
list — then `dropna(how='all')`. -/
def get_today_prices_body (o : Fetch (Option (List DF))) : Except PyExn DF :=
  match getResponse o with
  | .error e => .error e
  | .ok (status, b) =>
    match raise_for_status status with
    | .error e => .error e
    | .ok _ =>
      match b with
      | none => .error .valueError
      | some [] => .error .indexError
      | some (t :: _) => .ok (dropna_all t)

/-- `get_today_prices` (lines 237-251) as observed by its caller: the body
runs under `try/except Exception` and the handler returns
`pd.DataFrame()` — the empty frame — so no exception escapes. -/
def get_today_prices_call (o : Fetch (Option (List DF))) : Except PyExn DF :=
  match get_today_prices_body o with
  | .ok df => .ok df
  | .error _ => .ok []

/-- The plain value `get_today_prices` returns (the empty frame on any
failure); this is what the `st.cache_data` wrapper stores. -/
def get_today_prices_pure (o : Fetch (Option (List DF))) : DF :=
  match get_today_prices_body o with
  | .ok df => df
  | .error _ => []

/-- One JSON object of the `hydra:member` sequence: the fields the code
touches, a business date string and a closing price. -/
structure HistBar where
  businessDate : String
  closingPrice : Int
  deriving DecidableEq, Repr

/-- The parsed JSON of the transaction-history endpoint:
`none` — the body is not JSON, so `response.json()` raises;
`some none` — JSON without the `'hydra:member'` key;
`some (some bars)` — JSON carrying the member sequence. -/
abbrev HistJson := Option (Option (List HistBar))

/-- A date string pandas `to_datetime` accepts, in the shape the endpoint
serves (`YYYY-MM-DD`); anything else raises. -/
def isYMD (s : String) : Bool :=
  match s.data with
  | [a, b, c, d, '-', e, f, '-', g, h] => [a, b, c, d, e, f, g, h].all Char.isDigit
  | _ => false

/-- `pd.to_datetime` on one cell: the parsed date, or a raised error. -/
def to_datetime (s : String) : Except PyExn String :=
  if isYMD s then .ok s else .error .valueError

/-- `df['businessDate'] = pd.to_datetime(df['businessDate'])`. -/
def convert_dates : List HistBar → Except PyExn (List HistBar)
  | [] => .ok []
  | b :: bs =>
    match to_datetime b.businessDate with
    | .error e => .error e
    | .ok d =>
      match convert_dates bs with
      | .error e => .error e
      | .ok rest => .ok (⟨d, b.closingPrice⟩ :: rest)

/-- The `try` body plus fall-through of `get_historical_data` (lines
258-268): request, `response.json()` — with **no** `raise_for_status`, the
status code is never consulted — then, when `'hydra:member'` is present,
build the frame and convert dates unless it is empty; when the key is
absent, control falls through to the final `return pd.DataFrame()`. -/
def get_historical_data_body (o : Fetch HistJson) : Except PyExn (List HistBar) :=
  match getResponse o with
  | .error e => .error e
  | .ok (_, b) =>
    match b with
    | none => .error .jsonError
    | some none => .ok []
    | some (some bars) =>
      if bars.isEmpty then .ok bars else convert_dates bars

/-- `get_historical_data` (lines 253-268) as observed by its caller: the
body runs under `try/except Exception`; the handler shows an error message
and control reaches the final `return pd.DataFrame()`. -/
def get_historical_data_call (o : Fetch HistJson) : Except PyExn (List HistBar) :=
  match get_historical_data_body o with
  | .ok bars => .ok bars
  | .error _ => .ok []

/-- One `requests.get` against an oracle of successive network outcomes:
consumes exactly the outcome at the given index. -/
def requests_get {β : Type} (oracle : Nat → Fetch β) (i : Nat) : Fetch β × Nat :=
  (oracle i, i + 1)

/-- One call of `get_nepse_companies` against the network oracle. -/
def get_nepse_companies_run (oracle : Nat → Fetch (Option (List HtmlRow))) (i : Nat) :
    Except PyExn (List Company) × Nat :=
  let (o, i') := requests_get oracle i
  (get_nepse_companies_call o, i')

/-- One call of `get_today_prices` against the network oracle. -/
def get_today_prices_run (oracle : Nat → Fetch (Option (List DF))) (i : Nat) :
    Except PyExn DF × Nat :=
  let (o, i') := requests_get oracle i
  (get_today_prices_call o, i')

/-- One call of `get_historical_data` against the network oracle. -/
def get_historical_data_run (oracle : Nat → Fetch HistJson) (i : Nat) :
    Except PyExn (List HistBar) × Nat :=
  let (o, i') := requests_get oracle i
  (get_historical_data_call o, i')

/-- **C8 counterexample.** `get_historical_data` never consults the HTTP
status (it calls no `raise_for_status`): a response with non-success status
500 whose body is valid JSON carrying a `hydra:member` bar is processed
normally and returns that bar — not a fetch-error (empty) result as the
claim requires for every non-success status. -/
theorem c8_history_status_counterexample :
    get_historical_data_call
        (Fetch.response 500 (some (some [⟨"2024-01-05", 100⟩]))) =
      .ok [⟨"2024-01-05", 100⟩] ∧
    get_historical_data_call
        (Fetch.response 500 (some (some [⟨"2024-01-05", 100⟩]))) ≠
      .ok ([] : List HistBar) ∧
    400 ≤ 500 := by
  refine ⟨rfl, ?_, by decide⟩
  intro h
  rw [show get_historical_data_call
        (Fetch.response 500 (some (some [⟨"2024-01-05", 100⟩]))) =
      Except.ok [(⟨"2024-01-05", 100⟩ : HistBar)] from rfl] at h
  exact absurd (Except.ok.inj h) (by simp)

theorem get_nepse_companies_call_isOk (o : Fetch (Option (List HtmlRow))) :
    ∃ v, get_nepse_companies_call o = .ok v := by
  unfold get_nepse_companies_call
  cases get_nepse_companies_body o with
  | ok cs => exact ⟨cs, rfl⟩
  | error e => exact ⟨[], rfl⟩

theorem get_today_prices_call_isOk (o : Fetch (Option (List DF))) :
    ∃ v, get_today_prices_call o = .ok v := by
  unfold get_today_prices_call
  cases get_today_prices_body o with
  | ok df => exact ⟨df, rfl⟩
  | error e => exact ⟨[], rfl⟩

theorem get_historical_data_call_isOk (o : Fetch HistJson) :
    ∃ v, get_historical_data_call o = .ok v := by
  unfold get_historical_data_call
  cases get_historical_data_body o with
  | ok bars => exact ⟨bars, rfl⟩
  | error e => exact ⟨[], rfl⟩

/-- **C8 (amended).** Each of the three fetch operations performs exactly
one request per call (the oracle index advances by one) and never lets an
exception escape its `try/except` boundary — every outcome yields an `ok`
value. `get_nepse_companies` and `get_today_prices` return the empty result
on a network error, non-2xx status, or unusable body. `get_historical_data`
returns the empty result on a network error or non-JSON body, but ignores
the HTTP status entirely: its result is the same whatever the status code. -/
theorem c8_fetch_boundary :
    (∀ (oracle : Nat → Fetch (Option (List HtmlRow))) (i : Nat),
      (get_nepse_companies_run oracle i).2 = i + 1 ∧
      ∃ v, (get_nepse_companies_run oracle i).1 = .ok v) ∧
    (∀ (oracle : Nat → Fetch (Option (List DF))) (i : Nat),
      (get_today_prices_run oracle i).2 = i + 1 ∧
      ∃ v, (get_today_prices_run oracle i).1 = .ok v) ∧
    (∀ (oracle : Nat → Fetch HistJson) (i : Nat),
      (get_historical_data_run oracle i).2 = i + 1 ∧
      ∃ v, (get_historical_data_run oracle i).1 = .ok v) ∧
    (∀ (s : Nat) (b : Option (List HtmlRow)), 400 ≤ s →
      get_nepse_companies_call (.response s b) = .ok []) ∧
    (∀ (s : Nat) (b : Option (List DF)), 400 ≤ s →
      get_today_prices_call (.response s b) = .ok []) ∧
    (get_nepse_companies_call .netError = .ok [] ∧
      get_today_prices_call .netError = .ok [] ∧
      get_historical_data_call .netError = .ok []) ∧
    (∀ s : Nat, get_today_prices_call (.response s none) = .ok []) ∧
    (∀ s : Nat, get_historical_data_call (.response s none) = .ok []) ∧
    (∀ (s₁ s₂ : Nat) (b : HistJson),
      get_historical_data_call (.response s₁ b) =
        get_historical_data_call (.response s₂ b)) := by
  refine ⟨?_, ?_, ?_, ?_, ?_, ⟨rfl, rfl, rfl⟩, ?_, ?_, ?_⟩
  · intro oracle i
    exact ⟨rfl, get_nepse_companies_call_isOk (oracle i)⟩
  · intro oracle i
    exact ⟨rfl, get_today_prices_call_isOk (oracle i)⟩
  · intro oracle i
    exact ⟨rfl, get_historical_data_call_isOk (oracle i)⟩
  · intro s b h
    have hr : raise_for_status s = .error .httpError := by
      unfold raise_for_status
      rw [if_pos h]
    unfold get_nepse_companies_call get_nepse_companies_body
    simp only [getResponse, hr]
  · intro s b h
    have hr : raise_for_status s = .error .httpError := by
      unfold raise_for_status
      rw [if_pos h]
    unfold get_today_prices_call get_today_prices_body
    simp only [getResponse, hr]
  · intro s
    by_cases h : 400 ≤ s
    · have hr : raise_for_status s = .error .httpError := by
        unfold raise_for_status
        rw [if_pos h]
      unfold get_today_prices_call get_today_prices_body
      simp only [getResponse, hr]
    · have hr : raise_for_status s = .ok () := by
        unfold raise_for_status
        rw [if_neg h]
      unfold get_today_prices_call get_today_prices_body
      simp only [getResponse, hr]
  · intro s
    rfl
  · intro s₁ s₂ b
    rfl

/-- Witness for C8 (amended): at status 500 the two status-checking
fetchers return the empty result. -/
theorem c8_fetch_boundary_witness :
    get_nepse_companies_call (.response 500 none) = .ok [] ∧
    get_today_prices_call (.response 500 none) = .ok [] := by
  obtain ⟨-, -, -, h4, h5, -⟩ := c8_fetch_boundary
  exact ⟨h4 500 none (by decide), h5 500 none (by decide)⟩

/-- The memo entry held by Streamlit for `get_today_prices`: the time the
wrapped function last ran and the value it returned. -/
structure CacheEntry where
  time : Nat
  val : DF
  deriving DecidableEq, Repr

/-- The `ttl=60` of `@st.cache_data(ttl=60, ...)` (line 237), in seconds. -/
def cache_ttl : Nat := 60

/-- The `@st.cache_data(ttl=60)` wrapper around `get_today_prices`
(lines 237-251). Streamlit memoizes the value the wrapped function
*returns* — whatever that value is — and serves it to every call within
`ttl` seconds of the stored run; an expired or absent entry makes the call
run the function and store its return value. Since `get_today_prices`
swallows every exception and returns the empty frame, the empty frame is a
returned value like any other and is cached the same way. The result is
`(value served, cache state after the call, whether the wrapped function
actually ran)`. -/
def get_today_prices_cached :
    Nat → Fetch (Option (List DF)) → Option CacheEntry → DF × Option CacheEntry × Bool
  | now, o, some e =>
    if now < e.time + cache_ttl then (e.val, some e, false)
    else (get_today_prices_pure o, some ⟨now, get_today_prices_pure o⟩, true)
  | now, o, none =>
    (get_today_prices_pure o, some ⟨now, get_today_prices_pure o⟩, true)

/-- `get_today_prices.clear()` — the explicit invalidation wired to the
"Refresh Feed" and "Retry Connection" buttons (lines 402, 447, 451). -/
def get_today_prices_clear : Option CacheEntry := none

/-- **C2 counterexample.** A first call at time 0 hits a network error:
`get_today_prices` returns the empty frame and `st.cache_data` stores it.
A second call at time 30 — within the 60-second window, no invalidation —
is served the cached empty frame and does *not* run the fetch (third
component `false`), even though the network outcome available at time 30
would have produced a non-empty table. The claim that an error/empty result
is never cached, so the next call refetches immediately, is false. -/
theorem c2_empty_cached_counterexample :
    get_today_prices_cached 0 Fetch.netError none = ([], some ⟨0, []⟩, true) ∧
    get_today_prices_cached 30
        (Fetch.response 200 (some [[[some "NABIL", some "1200.5"]]]))
        (some ⟨0, []⟩) =
      ([], some ⟨0, []⟩, false) ∧
    get_today_prices_pure
        (Fetch.response 200 (some [[[some "NABIL", some "1200.5"]]])) =
      [[some "NABIL", some "1200.5"]] := by
  refine ⟨rfl, ?_, rfl⟩
  show (if (30 : Nat) < (0 : Nat) + cache_ttl then
      (([] : DF), some (⟨0, []⟩ : CacheEntry), false)
    else (get_today_prices_pure (Fetch.response 200 (some [[[some "NABIL", some "1200.5"]]])),
      some ⟨30, get_today_prices_pure (Fetch.response 200 (some [[[some "NABIL", some "1200.5"]]]))⟩,
      true)) = (([] : DF), some (⟨0, []⟩ : CacheEntry), false)
  rw [if_pos (by decide : (30 : Nat) < 0 + cache_ttl)]

/-- **C2 (amended).** `st.cache_data(ttl=60)` caches whatever value
`get_today_prices` returns — the empty frame produced on an error or an
empty market included. Any call within 60 seconds of the stored run is
served the cached value without running the fetch, whatever that value is;
a call finding no entry (first call, or after the explicit
`get_today_prices.clear()` invalidation) or an expired entry runs exactly
one fetch and stores its returned value, even when that value is empty. -/
theorem c2_cache_behavior (now : Nat) (o : Fetch (Option (List DF)))
    (e : CacheEntry) :
    (now < e.time + cache_ttl →
      get_today_prices_cached now o (some e) = (e.val, some e, false)) ∧
    (e.time + cache_ttl ≤ now →
      get_today_prices_cached now o (some e) =
        (get_today_prices_pure o, some ⟨now, get_today_prices_pure o⟩, true)) ∧
    get_today_prices_cached now o get_today_prices_clear =
      (get_today_prices_pure o, some ⟨now, get_today_prices_pure o⟩, true) := by
  refine ⟨?_, ?_, rfl⟩
  · intro h
    show (if now < e.time + cache_ttl then ((e.val, some e, false) : DF × Option CacheEntry × Bool)
      else (get_today_prices_pure o, some ⟨now, get_today_prices_pure o⟩, true)) =
        (e.val, some e, false)
    rw [if_pos h]
  · intro h
    show (if now < e.time + cache_ttl then ((e.val, some e, false) : DF × Option CacheEntry × Bool)
      else (get_today_prices_pure o, some ⟨now, get_today_prices_pure o⟩, true)) =
        (get_today_prices_pure o, some ⟨now, get_today_prices_pure o⟩, true)
    rw [if_neg (Nat.not_lt.mpr h)]

/-- Witness for C2 (amended): a cached empty frame from time 0 is served
unchanged at time 30 with no fetch. -/
theorem c2_cache_behavior_witness :
    get_today_prices_cached 30 Fetch.netError (some ⟨0, []⟩) =
      (([] : DF), some ⟨0, []⟩, false) :=
  (c2_cache_behavior 30 Fetch.netError ⟨0, []⟩).1 (by decide)

/-- The backend mode selected at boot by `DBAdapter.__init__`. -/
inductive Mode where
  | sqlite
  | gsheets
  deriving DecidableEq, Repr

/-- The persistent store: the accounts table/worksheet and the
registrations table/worksheet. -/
structure DBState where
  users : List Account
  regs : List RegRecord
  deriving DecidableEq, Repr

/-- The message the Trader Registration submit branch ends in. -/
inductive SubmitOutcome where
  | errRequired
  | errEmail
  | errPhone
  | errConsent
  | errWords
  | errDuplicate
  | success
  deriving DecidableEq, Repr

/-- Python `s.split()` over characters: maximal nonempty runs separated by
whitespace, empty runs discarded. -/
def pyWordsAux : List Char → List Char → List (List Char)
  | [], [] => []
  | [], acc => [acc.reverse]
  | c :: cs, acc =>
    if c.isWhitespace then
      match acc with
      | [] => pyWordsAux cs []
      | _ :: _ => acc.reverse :: pyWordsAux cs []
    else pyWordsAux cs (c :: acc)

/-- `len(s.split())` — the word count the form checks against 150. -/
def pyWordCount (s : String) : Nat :=
  (pyWordsAux s.data []).length

/-- Python `s.isdigit()`: nonempty and all digits. -/
def pyIsDigit (s : String) : Bool :=
  !s.data.isEmpty && s.data.all Char.isDigit

/-- Line 610: `valid_phone = len(phone) >= 10 and phone.isdigit()`. -/
def pyPhoneValid (phone : String) : Bool :=
  decide (10 ≤ phone.data.length) && pyIsDigit phone

/-- Scanner for the `[^@]+\.[^@]+` part of the email pattern, entered after
one non-`@` character has been consumed: succeeds when a later literal `.`
(reachable without crossing an `@`) is followed by a non-`@` character. -/
def emailTailAux : List Char → Bool
  | [] => false
  | c :: rest =>
    if c == '@' then false
    else if c == '.' then
      match rest with
      | [] => false
      | d :: _ => if d == '@' then emailTailAux rest else true
    else emailTailAux rest

/-- Matcher for `[^@]+\.[^@]+` at the start of the text after the `@`. -/
def emailTail (t : List Char) : Bool :=
  match t with
  | [] => false
  | c :: rest => if c == '@' then false else emailTailAux rest

/-- Scanner for the leading `[^@]+@` of the pattern, entered after one
non-`@` character has been consumed. -/
def emailHeadAux : List Char → Bool
  | [] => false
  | c :: rest => if c == '@' then emailTail rest else emailHeadAux rest

/-- Matcher for the full pattern anchored at the start of the string. -/
def emailHead (s : List Char) : Bool :=
  match s with
  | [] => false
  | c :: rest => if c == '@' then false else emailHeadAux rest

/-- The truth value line 609 *denotes*:
`re.match(r"[^@]+@[^@]+\.[^@]+", email)` is truthy. The shipped module
never produces this value — see `reMatchLine` — but the dead validation
chain below it is analysed against it. -/
def reMatchSemantics (email : String) : Bool :=
  emailHead email.data

/-- Evaluating line 609 itself: `re.match(...)` is executed at render time,
but QFInance.py never imports `re` (its imports are on lines 6-30), so the
name lookup raises `NameError` before the pattern is ever applied. -/
def reMatchLine (_email : String) : Except PyExn Bool :=
  Except.error PyExn.nameError

/-- Python `sep.join(parts)`. -/
def pyJoin (sep : String) : List String → String
  | [] => ""
  | [s] => s
  | s :: rest => s ++ sep ++ pyJoin sep rest

/-- Line 632: `int(graduation_year) if graduation_year else None` —
Python truthiness sends both `None` and `0` to `None`. -/
def pyGradYear (g : Option Int) : Option Int :=
  match g with
  | none => none
  | some y => if y == 0 then none else some y

/-- The values the Trader Registration form collects (lines 558-606). -/
structure Submission where
  full_name : String := ""
  email : String := ""
  password : String := ""
  phone : String := ""
  address : String := ""
  city : String := ""
  state : String := ""
  zip_code : String := ""
  country : String := ""
  highest_degree : String := ""
  field_of_study : String := ""
  university : String := ""
  graduation_year : Option Int := none
  certifications : String := ""
  trading_duration : String := ""
  trading_style : String := ""
  markets : List String := []
  specializations : String := ""
  current_occupation : String := ""
  company : String := ""
  years_of_experience : String := ""
  linkedin : String := ""
  about_yourself : String := ""
  goals : String := ""
  references : String := ""
  consent : Bool := false
  deriving DecidableEq, Repr

/-- The registration row built from the data tuple of lines 635-637:
`markets_str = ', '.join(markets)`, `grad_year = int(...) if ... else None`,
`consent` stored as 1/0, and the backend-supplied row id and `approved`
cell. -/
def regRow (sub : Submission) (uid rid : Nat) (approved : Option Nat) : RegRecord :=
  { id := rid, user_id := uid, full_name := sub.full_name, phone := sub.phone,
    address := sub.address, city := sub.city, state := sub.state,
    zip_code := sub.zip_code, country := sub.country,
    highest_degree := sub.highest_degree, field_of_study := sub.field_of_study,
    university := sub.university, graduation_year := pyGradYear sub.graduation_year,
    certifications := sub.certifications, trading_duration := sub.trading_duration,
    trading_style := sub.trading_style, markets := pyJoin ", " sub.markets,
    specializations := sub.specializations,
    current_occupation := sub.current_occupation, company := sub.company,
    years_of_experience := sub.years_of_experience, linkedin := sub.linkedin,
    about_yourself := sub.about_yourself, goals := sub.goals,
    references := sub.references,
    consent := if sub.consent then 1 else 0, approved := approved }

/-- The largest id among the stored registrations. -/
def maxRegId (regs : List RegRecord) : Nat :=
  regs.foldr (fun r m => max r.id m) 0

/-- `DBAdapter.create_registration`, sqlite path (lines 150-155): insert
with an auto-assigned id and the literal `approved = 0`. -/
def create_registration_sq (regs : List RegRecord) (sub : Submission) (uid : Nat) :
    List RegRecord :=
  regs ++ [regRow sub uid (maxRegId regs + 1) (some 0)]

/-- `DBAdapter.create_registration`, gsheets path (lines 143-148):
`new_id = len(records) + 1` and `append_row([new_id] + list(data))` — 26
values into a 27-column sheet, so the trailing `approved` cell stays blank. -/
def create_registration_gs (regs : List RegRecord) (sub : Submission) (uid : Nat) :
    List RegRecord :=
  regs ++ [regRow sub uid (regs.length + 1) none]

/-- The store writes of the success branch (lines 627-637): `create_user`
with the bcrypt hash of the submitted password (default `is_admin = 0`),
then `create_registration` under the id the user insert yielded
(`lastrowid` for sqlite, `len(records) + 1` for gsheets). -/
def registrationWrite (m : Mode) (st : DBState) (sub : Submission) : DBState :=
  match m with
  | .sqlite =>
    let users1 := create_user_sq st.users sub.email (hash_password sub.password) 0
    ⟨users1, create_registration_sq st.regs sub (maxUserId users1)⟩
  | .gsheets =>
    let users1 := create_user_gs st.users sub.email (hash_password sub.password) 0
    ⟨users1, create_registration_gs st.regs sub (st.users.length + 1)⟩

/-- The submit-button branch (lines 612-639), taking the previously
computed `valid_email`/`valid_phone`: required fields, email format, phone
format, consent, the 150-word limit on "About Yourself", then the duplicate
check — each failure stops the chain with a field-level error and no store
write; only the final branch writes. -/
def registrationProcess (m : Mode) (st : DBState) (sub : Submission)
    (valid_email valid_phone : Bool) : SubmitOutcome × DBState :=
  if sub.full_name == "" || sub.email == "" || sub.phone == "" then (.errRequired, st)
  else if !valid_email then (.errEmail, st)
  else if !valid_phone then (.errPhone, st)
  else if !sub.consent then (.errConsent, st)
  else if 150 < pyWordCount sub.about_yourself then (.errWords, st)
  else if (get_user st.users sub.email).isSome then (.errDuplicate, st)
  else (.success, registrationWrite m st sub)

/-- The Trader Registration page as shipped (lines 608-639): rendering the
form evaluates line 609, `valid_email = re.match(...)`, first — and since
`re` is never imported this raises `NameError`, so control never reaches
the validation chain or any store write; the store is returned untouched. -/
def registrationSubmit (m : Mode) (st : DBState) (sub : Submission) :
    Except PyExn SubmitOutcome × DBState :=
  match reMatchLine sub.email with
  | .error e => (.error e, st)
  | .ok valid_email =>
    let valid_phone := pyPhoneValid sub.phone
    let (out, st1) := registrationProcess m st sub valid_email valid_phone
    (.ok out, st1)

/-- An "About Yourself" text of exactly 151 single-letter words. -/
def about151 : String :=
  String.mk (List.intercalate [' '] (List.replicate 151 ['w']))

/-- A submission valid in every respect except its 151-word
"About Yourself" text. -/
def sub151 : Submission :=
  { full_name := "Ram Shrestha", email := "ram@example.com",
    password := "secret1", phone := "9841000000", address := "Kathmandu",
    city := "Kathmandu", country := "Nepal", consent := true,
    about_yourself := about151 }

/-- The store after boot on an empty database: the single admin account. -/
def st0 : DBState := ⟨[⟨1, adminEmail, admin_pass, 1⟩], []⟩

set_option maxRecDepth 40000 in
/-- **C7.** Validation atomicity of the 150-word limit, against the shipped
code: the example text has 151 words; yet every submission — the 151-word
one included — terminates with `NameError` from line 609 (`re` is never
imported) and leaves both tables untouched, rather than with the claimed
field-level validation error. The validation chain the code intends (lines
612-639, evaluated with the meaning line 609 denotes) would indeed reject
the 151-word submission with the word-limit error and no store write. -/
theorem c7_validation_atomicity :
    pyWordCount about151 = 151 ∧
    (∀ (m : Mode) (st : DBState) (sub : Submission),
      registrationSubmit m st sub = (.error .nameError, st)) ∧
    registrationSubmit .sqlite st0 sub151 = (.error .nameError, st0) ∧
    registrationProcess .sqlite st0 sub151 (reMatchSemantics sub151.email)
        (pyPhoneValid sub151.phone) = (.errWords, st0) := by
  refine ⟨by decide, ?_, rfl, by decide⟩
  intro m st sub
  rfl

/-- A submission meeting every condition the claim lists, with the empty
password. -/
def subEmptyPw : Submission :=
  { full_name := "Ram Shrestha", email := "ram@example.com",
    password := "", phone := "9841000000", address := "Kathmandu",
    city := "Kathmandu", country := "Nepal", consent := true,
    about_yourself := "I trade NEPSE stocks." }

set_option maxRecDepth 40000 in
/-- **C10.** The registration form performs no validation of the password
field: the outcome of the validation chain is unchanged under any
replacement of the password, and on the all-valid submission with the empty
password the chain (under the meaning line 609 denotes) accepts and stores
an account whose credential is the bcrypt hash of `""`. But as shipped no
submission succeeds at all: line 609 raises `NameError` (`re` is never
imported), so the claimed successful submission never happens and no
account is created. -/
theorem c10_no_password_validation :
    subEmptyPw.password = "" ∧
    registrationSubmit .sqlite st0 subEmptyPw = (.error .nameError, st0) ∧
    registrationSubmit .gsheets st0 subEmptyPw = (.error .nameError, st0) ∧
    (∀ (m : Mode) (st : DBState) (sub : Submission) (p1 p2 : String)
      (ve vp : Bool),
      (registrationProcess m st { sub with password := p1 } ve vp).1 =
        (registrationProcess m st { sub with password := p2 } ve vp).1) ∧
    (registrationProcess .sqlite st0 subEmptyPw (reMatchSemantics subEmptyPw.email)
        (pyPhoneValid subEmptyPw.phone)).1 = .success ∧
    (∃ a ∈ (registrationProcess .sqlite st0 subEmptyPw
        (reMatchSemantics subEmptyPw.email)
        (pyPhoneValid subEmptyPw.phone)).2.users,
      a.email = subEmptyPw.email ∧ a.password = hash_password "") := by
  refine ⟨rfl, rfl, rfl, ?_, by decide, by decide⟩
  intro m st sub p1 p2 ve vp
  simp only [registrationProcess]
  split_ifs <;> rfl
